import Mathlib

/-!
Verification of the declarative-resource reconciliation contract implemented by
`resource_arm_container_group.go` and `resource_arm_container_service.go`.

The Go code is shallowly embedded as follows.

* Go pointer fields that the code tests against `nil` before use are `Option`s;
  pointer fields that the code dereferences unconditionally (and which every
  producer in the embedded code populates) are plain values.
* A Go function that can panic on a `nil` dereference that the embedded code
  can actually reach (`len(*container.Ports)` on a container whose `Ports`
  pointer was never set, `*profile.Fqdn` on a profile the server has not
  annotated) returns an `Option`, with `none` standing for the panic.
* `float64` resource quantities (`cpu`, `memory`) are only ever copied, never
  computed with, so they are represented by `Rat`, a type with decidable
  equality on which copying is exact.
* `int`/`int32` are `Int`, with the `int32(...)` conversion made explicit.
* The remote management client is an explicit environment: each embedded CRUD
  function takes the results the client returns for the calls the Go function
  issues, in the order it issues them (Go multi-value returns `(resp, err)`
  become pairs with an `Option ApiError`).
* The schema-layer collaborators declared out of scope by the specification
  (location normalization, tag handling) are not part of the embedded
  documents; no claim mentions them.
-/

namespace Azurerm

/-- `float64` values that the code only copies (cpu / memory quantities). -/
abbrev GoFloat := Rat

/-- The `int32(...)` conversion applied by the Go code when reading an `int`
    configuration value into an SDK `*int32` field. -/
def toInt32 (n : Int) : Int :=
  (n + 2 ^ 31) % 2 ^ 32 - 2 ^ 31

/-- An error returned by the remote management client.  `notFound` is
    `utils.ResponseWasNotFound(resp.Response)` on the accompanying response. -/
structure ApiError where
  notFound : Bool
  msg : String
  deriving DecidableEq, Repr

/-- Errors produced by the embedded resource functions: a client error
    propagated as-is, a client error wrapped in a `fmt.Errorf` context string,
    or a plain `fmt.Errorf` message. -/
inductive GoError where
  | api (e : ApiError)
  | wrapped (context : String) (e : ApiError)
  | msg (s : String)
  deriving DecidableEq, Repr

/-! ## Container group: SDK-side (remote) types -/

/-- `containerinstance.ContainerPort` (the per-container port). -/
structure ContainerPort where
  port : Int
  deriving DecidableEq, Repr

/-- `containerinstance.Port` (group-level port: number + protocol). -/
structure GroupPort where
  port : Int
  protocol : String
  deriving DecidableEq, Repr

/-- `containerinstance.EnvironmentVariable`. -/
structure EnvironmentVariable where
  name : String
  value : String
  deriving DecidableEq, Repr

/-- `containerinstance.ResourceRequests` (CPU / MemoryInGB are dereferenced
    unconditionally once `Requests` is non-nil). -/
structure ResourceRequests where
  memoryInGB : GoFloat
  cpu : GoFloat
  deriving DecidableEq, Repr

/-- `containerinstance.ResourceRequirements`. -/
structure ResourceRequirements where
  requests : Option ResourceRequests
  deriving DecidableEq, Repr

/-- `containerinstance.VolumeMount`.  `ReadOnly` is nil-checked by the
    flatten code, so it stays optional. -/
structure VolumeMount where
  name : String
  mountPath : String
  readOnly : Option Bool
  deriving DecidableEq, Repr

/-- `containerinstance.AzureFileVolume`.  Its string fields are dereferenced
    unconditionally by the flatten code once `AzureFile` is non-nil. -/
structure AzureFileVolume where
  shareName : String
  readOnly : Bool
  storageAccountName : String
  storageAccountKey : String
  deriving DecidableEq, Repr

/-- `containerinstance.Volume` (group-level volume). -/
structure Volume where
  name : String
  azureFile : Option AzureFileVolume
  deriving DecidableEq, Repr

/-- `containerinstance.Container`.  Fields follow the nil-checks performed by
    `flattenContainerGroupContainers`. -/
structure Container where
  name : String
  image : String
  resources : Option ResourceRequirements
  ports : Option (List ContainerPort)
  environmentVariables : Option (List EnvironmentVariable)
  command : Option (List String)
  volumeMounts : Option (List VolumeMount)
  deriving DecidableEq, Repr

/-- `containerinstance.ImageRegistryCredential`. -/
structure ImageRegistryCredential where
  server : Option String
  username : Option String
  password : Option String
  deriving DecidableEq, Repr

/-! ## Container group: configuration-side (schema) types -/

/-- One entry of the `volume` block of a `container` block, with the schema's
    required string fields and the defaulted `read_only` boolean. -/
structure VolumeConfig where
  name : String
  mount_path : String
  read_only : Bool
  share_name : String
  storage_account_name : String
  storage_account_key : String
  deriving DecidableEq, Repr

/-- One entry of the `container` list.  Optional schema fields carry their Go
    zero value when absent (`port = 0`, `protocol = ""`, `command = ""`),
    exactly as `d.Get` hands them to the expand code.  The
    `environment_variables` Go map is modelled as an association list. -/
structure ContainerConfig where
  name : String
  image : String
  cpu : GoFloat
  memory : GoFloat
  port : Int
  protocol : String
  environment_variables : List (String × String)
  command : String
  volume : List VolumeConfig
  deriving DecidableEq, Repr

/-- One entry of the `image_registry_credential` list (all three fields are
    required by the schema). -/
structure CredConfig where
  server : String
  username : String
  password : String
  deriving DecidableEq, Repr

/-! ## Container group: expand direction -/

/-- Go `strings.ToUpper` on the ASCII protocol strings the code feeds it,
    expressed on the character list underlying the string. -/
def goToUpper (s : String) : String :=
  String.mk (s.data.map Char.toUpper)

/-- Go `strings.Split(s, " ")` for the single-character separator used by the
    code, expressed on the character list underlying the string. -/
def goSplitSpace (s : String) : List String :=
  (s.data.splitOn ' ').map String.mk

/-- Go `strings.Join(parts, " ")`. -/
def goJoinSpace (parts : List String) : String :=
  String.mk ([' '].intercalate (parts.map String.data))

/-- The `VolumeMount` built for one `volume` block by
    `expandContainerVolumes`. -/
def mountOfConfig (v : VolumeConfig) : VolumeMount :=
  { name := v.name, mountPath := v.mount_path, readOnly := some v.read_only }

/-- The `AzureFileVolume` built for one `volume` block by
    `expandContainerVolumes`. -/
def azureFileOfConfig (v : VolumeConfig) : AzureFileVolume :=
  { shareName := v.share_name
    readOnly := v.read_only
    storageAccountName := v.storage_account_name
    storageAccountKey := v.storage_account_key }

/-- The group-level `Volume` built for one `volume` block by
    `expandContainerVolumes`. -/
def volumeOfConfig (v : VolumeConfig) : Volume :=
  { name := v.name, azureFile := some (azureFileOfConfig v) }

/-- `expandContainerVolumes`: an empty `volume` list yields two nil pointers;
    otherwise one mount and one group-level volume per entry, in order. -/
def expandContainerVolumes (volumesRaw : List VolumeConfig) :
    Option (List VolumeMount) × Option (List Volume) :=
  match volumesRaw with
  | [] => (none, none)
  | _ => (some (volumesRaw.map mountOfConfig), some (volumesRaw.map volumeOfConfig))

/-- `expandContainerEnvironmentVariables`: every map entry becomes one
    `EnvironmentVariable`; the pointer returned is never nil. -/
def expandContainerEnvironmentVariables (envVars : List (String × String)) :
    List EnvironmentVariable :=
  envVars.map fun kv => { name := kv.1, value := kv.2 }

/-- The `Container` built for one `container` block by the loop body of
    `expandContainerGroupContainers`. -/
def expandContainer (data : ContainerConfig) : Container :=
  { name := data.name
    image := data.image
    resources := some { requests := some { memoryInGB := data.memory, cpu := data.cpu } }
    ports := if data.port ≠ 0 then some [{ port := toInt32 data.port }] else none
    environmentVariables := some (expandContainerEnvironmentVariables data.environment_variables)
    command := if data.command ≠ "" then some (goSplitSpace data.command) else none
    volumeMounts := (expandContainerVolumes data.volume).1 }

/-- The group-level port appended for one `container` block when its `port`
    is non-zero: the port number and the upper-cased protocol. -/
def groupPortOfConfig (data : ContainerConfig) : Option GroupPort :=
  if data.port ≠ 0 then
    some { port := toInt32 data.port, protocol := goToUpper data.protocol }
  else none

/-- The group-level volumes contributed container by container (the Go loop
    appends `*containerGroupVolumesPart` whenever it is non-nil; appending
    nothing and appending an empty batch coincide). -/
def groupVolumesOfConfigs : List ContainerConfig → List Volume
  | [] => []
  | c :: rest => ((expandContainerVolumes c.volume).2.getD []) ++ groupVolumesOfConfigs rest

/-- Result triple of `expandContainerGroupContainers` (the three slices the Go
    function returns pointers to; the pointers themselves are never nil). -/
structure ExpandedGroup where
  containers : List Container
  groupPorts : List GroupPort
  groupVolumes : List Volume
  deriving DecidableEq, Repr

/-- `expandContainerGroupContainers`: one container per block, one group port
    per block with a non-zero port, and the concatenated group volumes. -/
def expandContainerGroupContainers (containersConfig : List ContainerConfig) : ExpandedGroup :=
  { containers := containersConfig.map expandContainer
    groupPorts := containersConfig.filterMap groupPortOfConfig
    groupVolumes := groupVolumesOfConfigs containersConfig }

/-- `expandContainerImageRegistryCredentials`: nil for an empty credential
    list, otherwise one SDK credential per entry. -/
def expandContainerImageRegistryCredentials (credsRaw : List CredConfig) :
    Option (List ImageRegistryCredential) :=
  match credsRaw with
  | [] => none
  | _ => some (credsRaw.map fun c =>
      { server := some c.server, password := some c.password, username := some c.username })

/-! ## Container group: flatten direction -/

/-- A Go loop of the shape `for _, a := range l { if hit { acc = value } }`:
    the final accumulator is the value of the last hit, `acc₀` if none. -/
def lastLookup (f : α → Option β) : List α → Option β → Option β
  | [], acc => acc
  | a :: l, acc =>
    lastLookup f l (match f a with
      | some b => some b
      | none => acc)

/-- The flattened form of one `volume` block: the map assembled by
    `flattenContainerVolumes`, with `none` for keys the loop did not set. -/
structure VolumeFlat where
  name : String
  mount_path : String
  read_only : Option Bool
  share_name : Option String
  storage_account_name : Option String
  storage_account_key : Option String
  deriving DecidableEq, Repr

/-- The flattened form of one `container` block: the map assembled by the loop
    body of `flattenContainerGroupContainers`. -/
structure ContainerFlat where
  name : String
  image : String
  cpu : Option GoFloat
  memory : Option GoFloat
  port : Option Int
  protocol : Option String
  environment_variables : Option (List (String × String))
  command : Option String
  volume : Option (List VolumeFlat)
  deriving DecidableEq, Repr

/-- The inner loop of `flattenContainerVolumes` over the group volumes: the
    share/account pair of the last name-matching volume whose `AzureFile` is
    non-nil (a name match with nil `AzureFile` leaves the values untouched). -/
def lookupAzureFile (containerGroupVolumes : List Volume) (n : String) : Option AzureFileVolume :=
  lastLookup (fun cgv => if cgv.name = n then cgv.azureFile else none) containerGroupVolumes none

/-- The loop of `flattenContainerVolumes` over the prior `volume` config: the
    `storage_account_key` of the last name-matching entry. -/
def lookupStorageKey (containerVolumesConfig : List VolumeConfig) (n : String) : Option String :=
  lastLookup (fun cv => if n = cv.name then some cv.storage_account_key else none)
    containerVolumesConfig none

/-- `flattenContainerVolumes`: one output map per volume mount (appended
    unconditionally), with cross-referenced fields resolved by the two
    lookups above. -/
def flattenContainerVolumes (volumeMounts : List VolumeMount)
    (containerGroupVolumes : List Volume)
    (containerVolumesConfig : Option (List VolumeConfig)) : List VolumeFlat :=
  volumeMounts.map fun vm =>
    let af := lookupAzureFile containerGroupVolumes vm.name
    { name := vm.name
      mount_path := vm.mountPath
      read_only := vm.readOnly
      share_name := af.map AzureFileVolume.shareName
      storage_account_name := af.map AzureFileVolume.storageAccountName
      storage_account_key :=
        match containerVolumesConfig with
        | none => none
        | some cfg => lookupStorageKey cfg vm.name }

/-- `flattenContainerEnvironmentVariables`: the Go map rebuilt from the SDK
    slice, as an association list. -/
def flattenContainerEnvironmentVariables (input : List EnvironmentVariable) :
    List (String × String) :=
  input.map fun envVar => (envVar.name, envVar.value)

/-- The protocol search of `flattenContainerGroupContainers`: the Go string
    variable `protocol` after the loop over the group ports (it starts as `""`
    and is overwritten, possibly with `""`, on every port-number match). -/
def lookupProtocol (containerGroupPorts : List GroupPort) (p : Int) : String :=
  (lastLookup (fun cgPort => if cgPort.port = p then some cgPort.protocol else none)
    containerGroupPorts none).getD ""

/-- The search of `flattenContainerGroupContainers` over the prior `container`
    config for the volume list of the last container with a matching name
    (`containerVolumesConfig` stays nil when no name matches). -/
def lookupContainerVolumesConfig (containersConfigRaw : List ContainerConfig) (n : String) :
    Option (List VolumeConfig) :=
  lastLookup (fun data => if data.name = n then some data.volume else none)
    containersConfigRaw none

/-- The loop body of `flattenContainerGroupContainers` for one SDK container.
    `none` models the panic on `len(*container.Ports)` when the `Ports`
    pointer is nil. -/
def flattenContainer (containersConfigRaw : List ContainerConfig)
    (containerGroupPorts : Option (List GroupPort))
    (containerGroupVolumes : Option (List Volume)) (container : Container) :
    Option ContainerFlat :=
  match container.ports with
  | none => none
  | some ps =>
    let cm : Option ResourceRequests :=
      match container.resources with
      | none => none
      | some r => r.requests
    let pp : Option (Int × Option String) :=
      match ps with
      | [] => none
      | p0 :: _ =>
        let protocol :=
          match containerGroupPorts with
          | none => ""
          | some gps => lookupProtocol gps p0.port
        some (p0.port, if protocol ≠ "" then some protocol else none)
    some
      { name := container.name
        image := container.image
        cpu := cm.map ResourceRequests.cpu
        memory := cm.map ResourceRequests.memoryInGB
        port := pp.map Prod.fst
        protocol := match pp with
          | none => none
          | some q => q.2
        environment_variables :=
          match container.environmentVariables with
          | none => none
          | some evs =>
            if evs.length > 0 then some (flattenContainerEnvironmentVariables evs) else none
        command := container.command.map goJoinSpace
        volume :=
          match containerGroupVolumes, container.volumeMounts with
          | some gvs, some vms =>
            some (flattenContainerVolumes vms gvs
              (lookupContainerVolumesConfig containersConfigRaw container.name))
          | _, _ => none }

/-- `flattenContainerGroupContainers`: the Go loop over the SDK containers;
    a panic in any iteration (modelled `none`) aborts the whole flatten. -/
def flattenContainerGroupContainers (containersConfigRaw : List ContainerConfig)
    (containerGroupPorts : Option (List GroupPort))
    (containerGroupVolumes : Option (List Volume)) :
    List Container → Option (List ContainerFlat)
  | [] => some []
  | c :: rest =>
    match flattenContainer containersConfigRaw containerGroupPorts containerGroupVolumes c,
      flattenContainerGroupContainers containersConfigRaw containerGroupPorts
        containerGroupVolumes rest with
    | some cf, some rest' => some (cf :: rest')
    | _, _ => none

/-- The flattened form of one `image_registry_credential` entry. -/
structure CredFlat where
  server : Option String
  username : Option String
  password : Option String
  deriving DecidableEq, Repr

/-- The loop body of `flattenContainerImageRegistryCredentials` for the `i`-th
    SDK credential: the password is echoed from the prior config entry at the
    same index only when that entry exists, its `server` equals the remote
    credential's server, and `d.GetOk` reports the prior password as set
    (a string is "set" for `GetOk` exactly when it is non-empty). -/
def flattenCred (configsOld : List CredConfig) (i : Nat) (cred : ImageRegistryCredential) :
    CredFlat :=
  { server := cred.server
    username := cred.username
    password :=
      match configsOld[i]? with
      | none => none
      | some old =>
        match cred.server with
        | none => none
        | some s =>
          if s = old.server then
            (if old.password ≠ "" then some old.password else none)
          else none }

/-- `flattenContainerImageRegistryCredentials`: nil in, nil out; otherwise one
    flattened map per SDK credential, indexed against the prior config. -/
def flattenContainerImageRegistryCredentials (configsOld : List CredConfig)
    (credsPtr : Option (List ImageRegistryCredential)) : Option (List CredFlat) :=
  match credsPtr with
  | none => none
  | some creds => some (creds.enum.map fun ic => flattenCred configsOld ic.1 ic.2)

/-! ## Container service: SDK-side (remote) types -/

/-- `containerservice.MasterProfile`.  `Fqdn` is server-assigned: the expand
    code leaves it nil and the flatten code dereferences it, so it is the one
    optional field. -/
structure MasterProfile where
  count : Int
  dnsPrefix : String
  fqdn : Option String
  deriving DecidableEq, Repr

/-- `containerservice.SSHPublicKey`. -/
structure SSHPublicKey where
  keyData : String
  deriving DecidableEq, Repr

/-- `containerservice.LinuxProfile` (with `SSH.PublicKeys` inlined). -/
structure LinuxProfile where
  adminUsername : String
  publicKeys : List SSHPublicKey
  deriving DecidableEq, Repr

/-- `containerservice.AgentPoolProfile`; `Fqdn` is server-assigned. -/
structure AgentPoolProfile where
  name : String
  count : Int
  dnsPrefix : String
  fqdn : Option String
  vmSize : String
  deriving DecidableEq, Repr

/-- `containerservice.ServicePrincipalProfile`; the flatten code nil-checks
    `Secret`. -/
structure ServicePrincipalProfile where
  clientID : String
  secret : Option String
  deriving DecidableEq, Repr

/-- `containerservice.DiagnosticsProfile` with `VMDiagnostics` inlined;
    `StorageURI` is server-assigned and nil-checked by the flatten code. -/
structure DiagnosticsProfile where
  enabled : Bool
  storageURI : Option String
  deriving DecidableEq, Repr

/-- `containerservice.ContainerService` with its `Properties` inlined (every
    embedded function dereferences `Properties` unconditionally).
    `provisioningState` is dereferenced unconditionally by the refresh
    function, which only ever sees API responses; on the request built by the
    expand code the field is irrelevant and carries `""`. -/
structure ContainerService where
  id : Option String
  name : Option String
  orchestratorType : String
  masterProfile : MasterProfile
  linuxProfile : LinuxProfile
  agentPoolProfiles : List AgentPoolProfile
  diagnosticsProfile : DiagnosticsProfile
  servicePrincipalProfile : Option ServicePrincipalProfile
  provisioningState : String
  deriving DecidableEq, Repr

/-! ## Container service: configuration-side (schema) types -/

/-- The single `master_profile` block (`MaxItems: 1`). -/
structure MasterProfileConfig where
  count : Int
  dnsPrefix : String
  deriving DecidableEq, Repr

/-- The single `linux_profile` block with its single `ssh_key` block. -/
structure LinuxProfileConfig where
  admin_username : String
  key_data : String
  deriving DecidableEq, Repr

/-- The single `agent_pool_profile` block. -/
structure AgentPoolConfig where
  name : String
  count : Int
  dnsPrefix : String
  vm_size : String
  deriving DecidableEq, Repr

/-- The optional single `service_principal` block. -/
structure ServicePrincipalConfig where
  client_id : String
  client_secret : String
  deriving DecidableEq, Repr

/-- The desired document for a container service resource. -/
structure ContainerServiceConfig where
  name : String
  orchestration_platform : String
  master_profile : MasterProfileConfig
  linux_profile : LinuxProfileConfig
  agent_pool_profile : AgentPoolConfig
  service_principal : Option ServicePrincipalConfig
  diagnostics_enabled : Bool
  deriving DecidableEq, Repr

/-! ## Container service: expand direction -/

/-- `expandAzureRmContainerServiceMasterProfile` on the single block. -/
def expandAzureRmContainerServiceMasterProfile (config : MasterProfileConfig) : MasterProfile :=
  { count := toInt32 config.count, dnsPrefix := config.dnsPrefix, fqdn := none }

/-- `expandAzureRmContainerServiceLinuxProfile` on the single block. -/
def expandAzureRmContainerServiceLinuxProfile (config : LinuxProfileConfig) : LinuxProfile :=
  { adminUsername := config.admin_username, publicKeys := [{ keyData := config.key_data }] }

/-- `expandAzureRmContainerServiceAgentProfiles` on the single block. -/
def expandAzureRmContainerServiceAgentProfiles (config : AgentPoolConfig) :
    List AgentPoolProfile :=
  [{ name := config.name, count := toInt32 config.count, dnsPrefix := config.dnsPrefix,
     fqdn := none, vmSize := config.vm_size }]

/-- `expandAzureRmContainerServiceDiagnostics` on the single block. -/
def expandAzureRmContainerServiceDiagnostics (enabled : Bool) : DiagnosticsProfile :=
  { enabled := enabled, storageURI := none }

/-- `expandAzureRmContainerServiceServicePrincipal`: nil when the optional
    block is absent. -/
def expandAzureRmContainerServiceServicePrincipal (config : Option ServicePrincipalConfig) :
    Option ServicePrincipalProfile :=
  config.map fun c => { clientID := c.client_id, secret := some c.client_secret }

/-- The `containerservice.ContainerService` value assembled by
    `resourceArmContainerServiceCreateUpdate` before calling
    `CreateOrUpdate`. -/
def expandContainerServiceParameters (d : ContainerServiceConfig) : ContainerService :=
  { id := none
    name := some d.name
    orchestratorType := d.orchestration_platform
    masterProfile := expandAzureRmContainerServiceMasterProfile d.master_profile
    linuxProfile := expandAzureRmContainerServiceLinuxProfile d.linux_profile
    agentPoolProfiles := expandAzureRmContainerServiceAgentProfiles d.agent_pool_profile
    diagnosticsProfile := expandAzureRmContainerServiceDiagnostics d.diagnostics_enabled
    servicePrincipalProfile := expandAzureRmContainerServiceServicePrincipal d.service_principal
    provisioningState := "" }

/-! ## Container service: flatten direction -/

/-- Flattened `master_profile` block (the map built by
    `flattenAzureRmContainerServiceMasterProfile`). -/
structure MasterProfileFlat where
  count : Int
  dnsPrefix : String
  fqdn : String
  deriving DecidableEq, Repr

/-- Flattened `linux_profile` block. -/
structure LinuxProfileFlat where
  admin_username : String
  key_data : List String
  deriving DecidableEq, Repr

/-- Flattened `agent_pool_profile` entry. -/
structure AgentPoolFlat where
  name : String
  count : Int
  dnsPrefix : String
  fqdn : String
  vm_size : String
  deriving DecidableEq, Repr

/-- Flattened `service_principal` block (`client_secret` set only when the
    API returned a secret). -/
structure ServicePrincipalFlat where
  client_id : String
  client_secret : Option String
  deriving DecidableEq, Repr

/-- Flattened `diagnostics_profile` block. -/
structure DiagnosticsFlat where
  enabled : Bool
  storage_uri : Option String
  deriving DecidableEq, Repr

/-- `flattenAzureRmContainerServiceMasterProfile`: dereferences `Fqdn`
    unconditionally; `none` models the panic on a nil pointer. -/
def flattenAzureRmContainerServiceMasterProfile (profile : MasterProfile) :
    Option MasterProfileFlat :=
  profile.fqdn.map fun f =>
    { count := profile.count, dnsPrefix := profile.dnsPrefix, fqdn := f }

/-- `flattenAzureRmContainerServiceLinuxProfile`. -/
def flattenAzureRmContainerServiceLinuxProfile (profile : LinuxProfile) : LinuxProfileFlat :=
  { admin_username := profile.adminUsername
    key_data := profile.publicKeys.map SSHPublicKey.keyData }

/-- `flattenAzureRmContainerServiceAgentPoolProfiles`: dereferences each
    pool's `Fqdn` unconditionally (a nil `Fqdn` anywhere panics the loop,
    modelled `none`). -/
def flattenAzureRmContainerServiceAgentPoolProfiles :
    List AgentPoolProfile → Option (List AgentPoolFlat)
  | [] => some []
  | profile :: rest =>
    match profile.fqdn, flattenAzureRmContainerServiceAgentPoolProfiles rest with
    | some f, some t =>
      some ({ name := profile.name, count := profile.count,
              dnsPrefix := profile.dnsPrefix, fqdn := f,
              vm_size := profile.vmSize } :: t)
    | _, _ => none

/-- `flattenAzureRmContainerServiceServicePrincipalProfile`: nil in, nil out;
    the secret is copied only when non-nil. -/
def flattenAzureRmContainerServiceServicePrincipalProfile
    (profile : Option ServicePrincipalProfile) : Option ServicePrincipalFlat :=
  profile.map fun p => { client_id := p.clientID, client_secret := p.secret }

/-- `flattenAzureRmContainerServiceDiagnosticsProfile`. -/
def flattenAzureRmContainerServiceDiagnosticsProfile (profile : DiagnosticsProfile) :
    DiagnosticsFlat :=
  { enabled := profile.enabled, storage_uri := profile.storageURI }

/-- The canonical document assembled by the `d.Set` block of
    `resourceArmContainerServiceRead` (location and tag handling are
    out-of-scope collaborators). -/
structure ServiceFlat where
  name : Option String
  orchestration_platform : String
  master_profile : MasterProfileFlat
  linux_profile : LinuxProfileFlat
  agent_pool_profile : List AgentPoolFlat
  service_principal : Option ServicePrincipalFlat
  diagnostics_profile : DiagnosticsFlat
  deriving DecidableEq, Repr

/-- The field mapping performed by `resourceArmContainerServiceRead` on a
    successfully fetched remote object; `none` models a flatten panic. -/
def flattenContainerService (resp : ContainerService) : Option ServiceFlat :=
  match flattenAzureRmContainerServiceMasterProfile resp.masterProfile,
    flattenAzureRmContainerServiceAgentPoolProfiles resp.agentPoolProfiles with
  | some mp, some ap =>
    some
      { name := resp.name
        orchestration_platform := resp.orchestratorType
        master_profile := mp
        linux_profile := flattenAzureRmContainerServiceLinuxProfile resp.linuxProfile
        agent_pool_profile := ap
        service_principal :=
          flattenAzureRmContainerServiceServicePrincipalProfile resp.servicePrincipalProfile
        diagnostics_profile :=
          flattenAzureRmContainerServiceDiagnosticsProfile resp.diagnosticsProfile }
  | _, _ => none

/-! ## Container service: validation -/

/-- `validateArmContainerServiceOrchestrationPlatform` (the Go `map[string]bool`
    is a membership test; the function returns its accumulated errors). -/
def validateArmContainerServiceOrchestrationPlatform (value : String) : List String :=
  let capacities : List String := ["DCOS", "Kubernetes", "Swarm"]
  if ¬ (value ∈ capacities) then
    ["Container Service: Orchestration Platgorm can only be DCOS / Kubernetes / Swarm"]
  else []

/-- `validateArmContainerServiceMasterProfileCount`. -/
def validateArmContainerServiceMasterProfileCount (value : Int) : List String :=
  let capacities : List Int := [1, 3, 5]
  if ¬ (value ∈ capacities) then
    ["The number of master nodes must be 1, 3 or 5."]
  else []

/-- `validateArmContainerServiceAgentPoolProfileCount`. -/
def validateArmContainerServiceAgentPoolProfileCount (value : Int) : List String :=
  if value > 100 ∨ 0 ≥ value then
    ["The Count for an Agent Pool Profile can only be between 1 and 100."]
  else []

/-! ## Polling state machine -/

/-- `containerServiceStateRefreshFunc`: a read error aborts with a wrapped
    error, otherwise the provisioning state label is reported.  The poll-time
    `Get` results are the environment, indexed by poll step. -/
def containerServiceStateRefreshFunc (gets : Nat → ContainerService × Option ApiError)
    (t : Nat) : Except GoError String :=
  match gets t with
  | (_, some e) =>
    .error (.wrapped "Error issuing read request in containerServiceStateRefreshFunc" e)
  | (res, none) => .ok res.provisioningState

/-- Terminal results of a polling run. -/
inductive PollResult where
  | succeeded (label : String)
  | failed (label : String)
  | timedOut
  | refreshErr (e : GoError)
  deriving DecidableEq, Repr

/-- Modelled from the spec: the polling loop `WaitForState` of the
    state-change configuration lives in the orchestration framework, outside
    this repository.  Per the spec it repeatedly evaluates the refresh
    function until the label enters the target set (success), a label outside
    both the pending and the target set is observed (terminal failure), or the
    deadline expires (timeout, here a fuel count of remaining polls). -/
def awaitFrom (pending target : List String) (refresh : Nat → Except GoError String) :
    Nat → Nat → PollResult
  | _, 0 => .timedOut
  | t, fuel + 1 =>
    match refresh t with
    | .error e => .refreshErr e
    | .ok l =>
      if l ∈ target then .succeeded l
      else if l ∈ pending then awaitFrom pending target refresh (t + 1) fuel
      else .failed l

/-- The wait performed by `resourceArmContainerServiceCreateUpdate`, with the
    pending set `{"Updating", "Creating"}` and the target set `{"Succeeded"}`
    of its `StateChangeConf`. -/
def awaitTerminalState (refresh : Nat → Except GoError String) (timeout : Nat) : PollResult :=
  awaitFrom ["Updating", "Creating"] ["Succeeded"] refresh 0 timeout

/-! ## Container group: remote object and CRUD functions -/

/-- `containerinstance.IPAddress` (`Type` is renamed `addrType`). -/
structure IPAddress where
  addrType : Option String
  ports : Option (List GroupPort)
  ip : Option String
  dnsNameLabel : Option String
  fqdn : Option String
  deriving DecidableEq, Repr

/-- `containerinstance.ContainerGroup` with `ContainerGroupProperties`
    inlined (the Read code dereferences the embedded properties pointer
    unconditionally before its explicit nil-check). -/
structure ContainerGroupRemote where
  id : Option String
  name : Option String
  containers : List Container
  restartPolicy : String
  osType : String
  ipAddress : Option IPAddress
  volumes : Option (List Volume)
  imageRegistryCredentials : Option (List ImageRegistryCredential)
  deriving DecidableEq, Repr

/-- The desired document for a container group resource (location and tags
    are out-of-scope collaborators; optional strings carry the Go zero value
    `""` when absent). -/
structure ContainerGroupConfig where
  name : String
  ip_address_type : String
  os_type : String
  restart_policy : String
  dns_name_label : String
  image_registry_credential : List CredConfig
  container : List ContainerConfig
  deriving DecidableEq, Repr

/-- The `containerinstance.ContainerGroup` value assembled by
    `resourceArmContainerGroupCreate` before calling `CreateOrUpdate`. -/
def expandContainerGroup (d : ContainerGroupConfig) : ContainerGroupRemote :=
  let eg := expandContainerGroupContainers d.container
  { id := none
    name := some d.name
    containers := eg.containers
    restartPolicy := d.restart_policy
    osType := d.os_type
    ipAddress := some
      { addrType := some d.ip_address_type
        ports := some eg.groupPorts
        ip := none
        dnsNameLabel := if d.dns_name_label ≠ "" then some d.dns_name_label else none
        fqdn := none }
    volumes := some eg.groupVolumes
    imageRegistryCredentials :=
      expandContainerImageRegistryCredentials d.image_registry_credential }

/-- The canonical document assembled by the `d.Set` block of
    `resourceArmContainerGroupRead` on a successfully fetched remote object. -/
structure GroupCanonical where
  name : String
  resource_group_name : String
  os_type : String
  ip_address_type : Option String
  ip_address : Option String
  dns_name_label : Option String
  fqdn : Option String
  restart_policy : String
  image_registry_credential : Option (List CredFlat)
  container : List ContainerFlat
  deriving DecidableEq, Repr

/-- The field mapping of `resourceArmContainerGroupRead` on a fetched remote
    object.  `none` models a panic: the container flatten runs
    unconditionally on `props.IPAddress.Ports`, so a nil `IPAddress` (or a
    panic inside the flatten) crashes the read. -/
def groupCanonicalOfResp (dContainers : List ContainerConfig) (dCreds : List CredConfig)
    (resGroup name : String) (resp : ContainerGroupRemote) : Option GroupCanonical :=
  match resp.ipAddress with
  | none => none
  | some address =>
    (flattenContainerGroupContainers dContainers address.ports resp.volumes
        resp.containers).map fun containerConfigs =>
      { name := name
        resource_group_name := resGroup
        os_type := resp.osType
        ip_address_type := address.addrType
        ip_address := address.ip
        dns_name_label := address.dnsNameLabel
        fqdn := address.fqdn
        restart_policy := resp.restartPolicy
        image_registry_credential :=
          flattenContainerImageRegistryCredentials dCreds resp.imageRegistryCredentials
        container := containerConfigs }

/-- Result of an embedded Read: the fields were set from the remote object
    (`ok`, with `none` standing for a panic while mapping), the remote object
    was not found (`removed`: `d.SetId("")` clears the local identifier and
    nil is returned), or the error is returned. -/
inductive ReadOutcome (α : Type) where
  | ok (doc : α)
  | removed
  | err (e : GoError)
  deriving DecidableEq, Repr

/-- `resourceArmContainerGroupRead` after the identifier has been parsed into
    `resGroup`/`name`: the pair is the read outcome and the stored identifier
    after the call. -/
def resourceArmContainerGroupRead (dContainers : List ContainerConfig)
    (dCreds : List CredConfig) (currentId resGroup name : String)
    (get : ContainerGroupRemote × Option ApiError) :
    ReadOutcome (Option GroupCanonical) × String :=
  match get with
  | (_, some e) =>
    if e.notFound then (.removed, "") else (.err (.api e), currentId)
  | (resp, none) =>
    (.ok (groupCanonicalOfResp dContainers dCreds resGroup name resp), currentId)

/-- `resourceArmContainerServiceRead` after identifier parsing. -/
def resourceArmContainerServiceRead (currentId : String)
    (get : ContainerService × Option ApiError) :
    ReadOutcome (Option ServiceFlat) × String :=
  match get with
  | (_, some e) =>
    if e.notFound then (.removed, "")
    else (.err (.wrapped "Error making Read request on Azure Container Service" e), currentId)
  | (resp, none) => (.ok (flattenContainerService resp), currentId)

/-- `resourceArmContainerGroupDelete` after identifier parsing: a not-found
    response from the delete call is success. -/
def resourceArmContainerGroupDelete (deleteErr : Option ApiError) : Option GoError :=
  match deleteErr with
  | some e => if e.notFound then none else some (.api e)
  | none => none

/-- `resourceArmContainerServiceDelete` after identifier parsing: any error
    of the delete call is wrapped and returned (there is no not-found check),
    then the completion wait error, if any, is returned as-is. -/
def resourceArmContainerServiceDelete (deleteErr : Option ApiError)
    (waitErr : Option ApiError) : Option GoError :=
  match deleteErr with
  | some e => some (.wrapped "Error deleting Container Service" e)
  | none =>
    match waitErr with
    | some e => some (.api e)
    | none => none

/-! ## Create functions -/

/-- How an embedded Create run ends. -/
inductive CreateOutcome where
  | importAsExists (id : String)
  | errChecking (e : ApiError)
  | errApi (e : ApiError)
  | errCannotReadId
  | errWait (p : PollResult)
  | created (id : String)
  deriving DecidableEq, Repr

/-- An embedded Create run: its outcome, whether the `CreateOrUpdate` call
    was issued, and the identifier stored by `d.SetId` (if any). -/
structure CreateResult where
  outcome : CreateOutcome
  createOrUpdateIssued : Bool
  storedId : Option String
  deriving DecidableEq, Repr

/-- The remote client calls `resourceArmContainerGroupCreate` can issue, with
    the results the environment returns for each. -/
structure GroupClient where
  getBefore : ContainerGroupRemote × Option ApiError
  createOrUpdate : ContainerGroupRemote → Option ApiError
  getAfter : ContainerGroupRemote × Option ApiError

/-- `resourceArmContainerGroupCreate`: existence check, import-as-exists
    guard, create-or-update, re-read, identifier check, `d.SetId`. -/
def resourceArmContainerGroupCreate (client : GroupClient) (d : ContainerGroupConfig) :
    CreateResult :=
  let (resp, err) := client.getBefore
  let checkFailed : Option ApiError :=
    match err with
    | some e => if ¬ e.notFound then some e else none
    | none => none
  match checkFailed with
  | some e => ⟨.errChecking e, false, none⟩
  | none =>
    match resp.id with
    | some i => ⟨.importAsExists i, false, none⟩
    | none =>
      match client.createOrUpdate (expandContainerGroup d) with
      | some e => ⟨.errApi e, true, none⟩
      | none =>
        let (read, err2) := client.getAfter
        match err2 with
        | some e => ⟨.errApi e, true, none⟩
        | none =>
          match read.id with
          | none => ⟨.errCannotReadId, true, none⟩
          | some i => ⟨.created i, true, some i⟩

/-- The remote client calls `resourceArmContainerServiceCreateUpdate` can
    issue; `pollGets` are the reads performed during the wait, by poll step. -/
structure ServiceClient where
  getBefore : ContainerService × Option ApiError
  createOrUpdate : ContainerService → Option ApiError
  getAfter : ContainerService × Option ApiError
  pollGets : Nat → ContainerService × Option ApiError

/-- `resourceArmContainerServiceCreateUpdate`: the existence check runs only
    for a new resource; then create-or-update, re-read, identifier check,
    the provisioning-state wait, and `d.SetId`. -/
def resourceArmContainerServiceCreateUpdate (client : ServiceClient)
    (d : ContainerServiceConfig) (isNewResource : Bool) (timeout : Nat) : CreateResult :=
  let importCheck : Option CreateResult :=
    if isNewResource then
      let (resp, err) := client.getBefore
      match err with
      | some e =>
        if ¬ e.notFound then some ⟨.errChecking e, false, none⟩
        else
          match resp.id with
          | some i => some ⟨.importAsExists i, false, none⟩
          | none => none
      | none =>
        match resp.id with
        | some i => some ⟨.importAsExists i, false, none⟩
        | none => none
    else none
  match importCheck with
  | some r => r
  | none =>
    match client.createOrUpdate (expandContainerServiceParameters d) with
    | some e => ⟨.errApi e, true, none⟩
    | none =>
      let (read, err2) := client.getAfter
      match err2 with
      | some e => ⟨.errApi e, true, none⟩
      | none =>
        match read.id with
        | none => ⟨.errCannotReadId, true, none⟩
        | some i =>
          match awaitTerminalState (containerServiceStateRefreshFunc client.pollGets)
            timeout with
          | .succeeded _ => ⟨.created i, true, some i⟩
          | p => ⟨.errWait p, true, none⟩

/-! ## Round-trip scaffolding -/

theorem lastLookup_no_hit (f : α → Option β) :
    ∀ (l : List α) (acc : Option β), (∀ a ∈ l, f a = none) → lastLookup f l acc = acc := by
  intro l
  induction l with
  | nil => intro acc _; rfl
  | cons a t ih =>
    intro acc h
    have ha : f a = none := h a (List.mem_cons_self a t)
    simp only [lastLookup, ha]
    exact ih acc fun x hx => h x (List.mem_cons_of_mem a hx)

theorem expandContainerVolumes_snd_getD (l : List VolumeConfig) :
    (expandContainerVolumes l).2.getD [] = l.map volumeOfConfig := by
  cases l with
  | nil => rfl
  | cons v t => rfl

theorem mem_groupVolumesOfConfigs_elim {D : List ContainerConfig} {x : Volume}
    (hx : x ∈ groupVolumesOfConfigs D) :
    ∃ c ∈ D, ∃ v ∈ c.volume, x = volumeOfConfig v := by
  induction D with
  | nil => exact absurd hx (by simp [groupVolumesOfConfigs])
  | cons a t ih =>
    simp only [groupVolumesOfConfigs, expandContainerVolumes_snd_getD,
      List.mem_append] at hx
    rcases hx with h | h
    · rcases List.mem_map.1 h with ⟨v, hv, hxv⟩
      exact ⟨a, List.mem_cons_self a t, v, hv, hxv.symm⟩
    · rcases ih h with ⟨c, hc, v, hv, hxv⟩
      exact ⟨c, List.mem_cons_of_mem a hc, v, hv, hxv⟩

/-- C2 (counterexample): when the remote object is already absent — the
    delete call reports not-found — the container service Delete returns a
    wrapped error, not success: the code has no not-found check on its delete
    path, so Delete is not idempotent for the container service. -/
theorem claim_C2_counterexample :
    resourceArmContainerServiceDelete (some { notFound := true, msg := "404" }) none
      = some (.wrapped "Error deleting Container Service"
          { notFound := true, msg := "404" }) := rfl

/-- C2 (amended): Delete is idempotent for the container group — a not-found
    result from the delete call is normalized to success — but the container
    service Delete propagates every delete-call error, a not-found one
    included, as an error. -/
theorem claim_C2_delete_idempotent_amended (e : ApiError) (waitErr : Option ApiError)
    (hnf : e.notFound = true) :
    resourceArmContainerGroupDelete (some e) = none ∧
      resourceArmContainerServiceDelete (some e) waitErr ≠ none := by
  constructor
  · simp [resourceArmContainerGroupDelete, hnf]
  · simp [resourceArmContainerServiceDelete]

/-- C2 (witness): the amended idempotency theorem at a concrete not-found
    delete result. -/
theorem claim_C2_witness :
    ({ notFound := true, msg := "404" } : ApiError).notFound = true ∧
    (resourceArmContainerGroupDelete (some { notFound := true, msg := "404" }) = none ∧
      resourceArmContainerServiceDelete (some { notFound := true, msg := "404" }) none
        ≠ none) :=
  ⟨rfl, claim_C2_delete_idempotent_amended { notFound := true, msg := "404" } none rfl⟩

theorem awaitFrom_timedOut (pending target : List String)
    (refresh : Nat → Except GoError String) :
    ∀ (fuel t : Nat),
      (∀ i, i < fuel → ∃ l, refresh (t + i) = .ok l ∧ l ∈ pending ∧ l ∉ target) →
      awaitFrom pending target refresh t fuel = .timedOut := by
  intro fuel
  induction fuel with
  | zero => intro t _; rfl
  | succ f ih =>
    intro t h
    rcases h 0 (Nat.succ_pos f) with ⟨l, hl, hp, hnt⟩
    rw [Nat.add_zero] at hl
    have hshift : ∀ i, i < f → ∃ l, refresh (t + 1 + i) = .ok l ∧ l ∈ pending ∧ l ∉ target := by
      intro i hi
      have hnext := h (i + 1) (by omega)
      rwa [show t + (i + 1) = t + 1 + i by omega] at hnext
    simp only [awaitFrom, hl, if_neg hnt, if_pos hp]
    exact ih (t + 1) hshift

theorem awaitFrom_failed (pending target : List String)
    (refresh : Nat → Except GoError String) (l : String)
    (hlp : l ∉ pending) (hlt : l ∉ target) :
    ∀ (k t fuel : Nat),
      (∀ i, i < k → ∃ l2, refresh (t + i) = .ok l2 ∧ l2 ∈ pending ∧ l2 ∉ target) →
      refresh (t + k) = .ok l → k < fuel →
      awaitFrom pending target refresh t fuel = .failed l := by
  intro k
  induction k with
  | zero =>
    intro t fuel _ hk hfuel
    cases fuel with
    | zero => omega
    | succ f =>
      rw [Nat.add_zero] at hk
      simp only [awaitFrom, hk, if_neg hlt, if_neg hlp]
  | succ kk ih =>
    intro t fuel hpre hk hfuel
    cases fuel with
    | zero => omega
    | succ f =>
      rcases hpre 0 (Nat.succ_pos _) with ⟨l0, hl0, hp0, hnt0⟩
      rw [Nat.add_zero] at hl0
      simp only [awaitFrom, hl0, if_neg hnt0, if_pos hp0]
      apply ih (t + 1) f
      · intro i hi
        have hnext := hpre (i + 1) (by omega)
        rwa [show t + (i + 1) = t + 1 + i by omega] at hnext
      · rwa [show t + (kk + 1) = t + 1 + kk by omega] at hk
      · omega

/-- C3: with the pending set `{"Updating", "Creating"}` and the target set
    `{"Succeeded"}` configured by the create/update code, a polling run whose
    label stays in the pending set for every step up to the deadline ends in
    `timedOut` (a timeout, not a remote failure); and a run that observes a
    label outside both sets after `k` pending steps ends in `failed` with
    that label for every deadline larger than `k`, however much timeout
    remains. -/
theorem claim_C3_await_terminal
    (refreshA refreshB : Nat → Except GoError String) (n k : Nat) (l : String)
    (hpendA : ∀ t, t < n → refreshA t = .ok "Updating" ∨ refreshA t = .ok "Creating")
    (hpendB : ∀ t, t < k → refreshB t = .ok "Updating" ∨ refreshB t = .ok "Creating")
    (hobs : refreshB k = .ok l)
    (hout : l ∉ (["Updating", "Creating"] : List String))
    (htar : l ∉ (["Succeeded"] : List String)) :
    awaitTerminalState refreshA n = .timedOut ∧
      ∀ m, k < m → awaitTerminalState refreshB m = .failed l := by
  constructor
  · apply awaitFrom_timedOut
    intro i hi
    rcases hpendA i (by omega) with h | h <;>
      exact ⟨_, by rwa [Nat.zero_add], by decide, by decide⟩
  · intro m hm
    apply awaitFrom_failed _ _ refreshB l hout htar k 0 m
    · intro i hi
      rcases hpendB i (by omega) with h | h <;>
        exact ⟨_, by rwa [Nat.zero_add], by decide, by decide⟩
    · rwa [Nat.zero_add]
    · exact hm

/-- A refresh stream that reports a pending label forever. -/
def c3PendingRefresh : Nat → Except GoError String := fun _ => .ok "Creating"

/-- A refresh stream that reports two pending labels and then a label outside
    both the pending and the target set. -/
def c3FailingRefresh : Nat → Except GoError String :=
  fun t => if t < 2 then .ok "Creating" else .ok "Failed"

/-- C3 (witness): the polling theorem at two concrete refresh streams — the
    ever-pending one times out after 5 polls; the one that turns `"Failed"`
    at step 2 fails even with 10 polls of budget left. -/
theorem claim_C3_witness :
    ((∀ t, t < 5 → c3PendingRefresh t = .ok "Updating" ∨
        c3PendingRefresh t = .ok "Creating") ∧
      (∀ t, t < 2 → c3FailingRefresh t = .ok "Updating" ∨
        c3FailingRefresh t = .ok "Creating") ∧
      c3FailingRefresh 2 = .ok "Failed" ∧
      ("Failed" : String) ∉ (["Updating", "Creating"] : List String) ∧
      ("Failed" : String) ∉ (["Succeeded"] : List String)) ∧
    (awaitTerminalState c3PendingRefresh 5 = .timedOut ∧
      awaitTerminalState c3FailingRefresh 10 = .failed "Failed") := by
  have hB : ∀ t, t < 2 → c3FailingRefresh t = .ok "Updating" ∨
      c3FailingRefresh t = .ok "Creating" := by
    intro t ht
    right
    simp [c3FailingRefresh, ht]
  have key := claim_C3_await_terminal c3PendingRefresh c3FailingRefresh 5 2 "Failed"
    (fun t _ => Or.inr rfl) hB rfl (by decide) (by decide)
  exact ⟨⟨fun t _ => Or.inr rfl, hB, rfl, by decide, by decide⟩,
    key.1, key.2 10 (by decide)⟩

theorem lastLookup_eq_some (f : α → Option β) :
    ∀ (l : List α) (acc : Option β) (b : β), lastLookup f l acc = some b →
      (∃ a ∈ l, f a = some b) ∨ acc = some b := by
  intro l
  induction l with
  | nil => intro acc b h; exact Or.inr h
  | cons a t ih =>
    intro acc b h
    simp only [lastLookup] at h
    cases hfa : f a with
    | some v =>
      rw [hfa] at h
      rcases ih _ b h with ⟨x, hx, hfx⟩ | hacc
      · exact Or.inl ⟨x, List.mem_cons_of_mem a hx, hfx⟩
      · have hvb : v = b := by simpa using hacc
        exact Or.inl ⟨a, List.mem_cons_self a t, hvb ▸ hfa⟩
    | none =>
      rw [hfa] at h
      rcases ih _ b h with ⟨x, hx, hfx⟩ | hacc
      · exact Or.inl ⟨x, List.mem_cons_of_mem a hx, hfx⟩
      · exact Or.inr (by simpa using hacc)

theorem lookupAzureFile_some {gv : List Volume} {n : String} {af : AzureFileVolume}
    (h : lookupAzureFile gv n = some af) :
    ∃ v ∈ gv, v.name = n ∧ v.azureFile = some af := by
  rcases lastLookup_eq_some _ gv none af h with ⟨a, ha, hfa⟩ | hacc
  · by_cases han : a.name = n
    · exact ⟨a, ha, han, by simpa [han] using hfa⟩
    · simp [han] at hfa
  · simp at hacc

theorem lookupAzureFile_none {gv : List Volume} {n : String}
    (h : ∀ v ∈ gv, v.name = n → v.azureFile = none) :
    lookupAzureFile gv n = none := by
  apply lastLookup_no_hit
  intro v hv
  by_cases hn : v.name = n
  · simp [hn, h v hv hn]
  · simp [hn]

/-- C4 (counterexample): a volume mount with no exactly-matching group-level
    volume (here the group volume list is empty) still produces one output
    entry — carrying the mount's own fields and no `share_name` or
    `storage_account_name` — not "no output entry" as claimed. -/
theorem claim_C4_counterexample :
    flattenContainerVolumes [{ name := "v1", mountPath := "/mnt", readOnly := some false }]
        [] none
      = [{ name := "v1", mount_path := "/mnt", read_only := some false, share_name := none,
           storage_account_name := none, storage_account_key := none }] ∧
      ([] : List Volume) = [] := ⟨rfl, rfl⟩

/-- C4 (amended): the flatten produces exactly one output entry per volume
    mount — an unmatched mount is NOT dropped; it yields an entry with no
    `share_name` and no `storage_account_name` — and whenever an output entry
    carries a `share_name`, it was copied (together with the
    `storage_account_name`) from a group-level volume whose name equals the
    mount's name exactly. -/
theorem claim_C4_crossref_amended (volumeMounts : List VolumeMount)
    (containerGroupVolumes : List Volume) (cfg : Option (List VolumeConfig)) :
    (flattenContainerVolumes volumeMounts containerGroupVolumes cfg).length
        = volumeMounts.length ∧
      ∀ vf ∈ flattenContainerVolumes volumeMounts containerGroupVolumes cfg,
        (∀ s, vf.share_name = some s →
          ∃ v ∈ containerGroupVolumes, v.name = vf.name ∧
            ∃ af, v.azureFile = some af ∧ af.shareName = s ∧
              vf.storage_account_name = some af.storageAccountName) ∧
        ((∀ v ∈ containerGroupVolumes, v.name = vf.name → v.azureFile = none) →
          vf.share_name = none ∧ vf.storage_account_name = none) := by
  constructor
  · simp [flattenContainerVolumes]
  · intro vf hvf
    rcases List.mem_map.1 hvf with ⟨vm, hvm, rfl⟩
    constructor
    · intro s hs
      cases haf : lookupAzureFile containerGroupVolumes vm.name with
      | none => simp [flattenContainerVolumes, haf] at hs
      | some af =>
        have hafs : af.shareName = s := by
          simpa [flattenContainerVolumes, haf] using hs
        rcases lookupAzureFile_some haf with ⟨v, hvgv, hvn, hvaf⟩
        exact ⟨v, hvgv, hvn, af, hvaf, hafs, by simp [flattenContainerVolumes, haf]⟩
    · intro hnone
      have h0 : lookupAzureFile containerGroupVolumes vm.name = none :=
        lookupAzureFile_none fun v hv hn => hnone v hv hn
      simp [flattenContainerVolumes, h0]

/-- A single mount whose name matches the single group volume, for the C4
    witness. -/
def c4Mounts : List VolumeMount := [{ name := "v", mountPath := "/m", readOnly := some true }]

/-- The matching group volume for the C4 witness. -/
def c4Vols : List Volume :=
  [{ name := "v",
     azureFile := some { shareName := "sh", readOnly := true,
                         storageAccountName := "acct", storageAccountKey := "k" } }]

/-- C4 (witness): the amended cross-reference theorem instantiated at the
    concrete mount and volume lists above. -/
theorem claim_C4_witness :
    (flattenContainerVolumes c4Mounts c4Vols none).length = c4Mounts.length ∧
      ∀ vf ∈ flattenContainerVolumes c4Mounts c4Vols none,
        (∀ s, vf.share_name = some s →
          ∃ v ∈ c4Vols, v.name = vf.name ∧
            ∃ af, v.azureFile = some af ∧ af.shareName = s ∧
              vf.storage_account_name = some af.storageAccountName) ∧
        ((∀ v ∈ c4Vols, v.name = vf.name → v.azureFile = none) →
          vf.share_name = none ∧ vf.storage_account_name = none) :=
  claim_C4_crossref_amended c4Mounts c4Vols none

/-- C5: when the remote `Get` reports not-found, both Reads return the
    removed outcome — no error, and the stored identifier is cleared to `""`
    (the caller sees `found = false`); any other `Get` failure is returned as
    an error (raw for the group, wrapped for the service) and the identifier
    is untouched. -/
theorem claim_C5_read_not_found
    (dContainers : List ContainerConfig) (dCreds : List CredConfig)
    (currentId resGroup name : String) (respG : ContainerGroupRemote)
    (respS : ContainerService) (e : ApiError) :
    (e.notFound = true →
      resourceArmContainerGroupRead dContainers dCreds currentId resGroup name
          (respG, some e) = (.removed, "") ∧
        resourceArmContainerServiceRead currentId (respS, some e) = (.removed, "")) ∧
    (e.notFound = false →
      resourceArmContainerGroupRead dContainers dCreds currentId resGroup name
          (respG, some e) = (.err (.api e), currentId) ∧
        resourceArmContainerServiceRead currentId (respS, some e)
          = (.err (.wrapped "Error making Read request on Azure Container Service" e),
              currentId)) := by
  constructor
  · intro h
    constructor <;>
      simp [resourceArmContainerGroupRead, resourceArmContainerServiceRead, h]
  · intro h
    constructor <;>
      simp [resourceArmContainerGroupRead, resourceArmContainerServiceRead, h]

/-- A minimal remote container group carried by the C5/C6 clients. -/
def cexRespG : ContainerGroupRemote :=
  { id := none, name := none, containers := [], restartPolicy := "", osType := "",
    ipAddress := none, volumes := none, imageRegistryCredentials := none }

/-- A minimal remote container service carried by the C5/C6 clients. -/
def cexRespS : ContainerService :=
  { id := none, name := none, orchestratorType := "",
    masterProfile := { count := 1, dnsPrefix := "x", fqdn := none },
    linuxProfile := { adminUsername := "u", publicKeys := [] },
    agentPoolProfiles := [], diagnosticsProfile := { enabled := false, storageURI := none },
    servicePrincipalProfile := none, provisioningState := "" }

/-- C5 (witness): the read theorem at a concrete not-found error and at a
    concrete other error. -/
theorem claim_C5_witness :
    (({ notFound := true, msg := "404" } : ApiError).notFound = true ∧
      resourceArmContainerGroupRead [] [] "oldid" "rg" "nm"
          (cexRespG, some { notFound := true, msg := "404" }) = (.removed, "") ∧
      resourceArmContainerServiceRead "oldid"
          (cexRespS, some { notFound := true, msg := "404" }) = (.removed, "")) ∧
    (({ notFound := false, msg := "boom" } : ApiError).notFound = false ∧
      resourceArmContainerGroupRead [] [] "oldid" "rg" "nm"
          (cexRespG, some { notFound := false, msg := "boom" })
        = (.err (.api { notFound := false, msg := "boom" }), "oldid") ∧
      resourceArmContainerServiceRead "oldid"
          (cexRespS, some { notFound := false, msg := "boom" })
        = (.err (.wrapped "Error making Read request on Azure Container Service"
            { notFound := false, msg := "boom" }), "oldid")) := by
  refine ⟨⟨rfl, ?_, ?_⟩, ⟨rfl, ?_, ?_⟩⟩
  · exact ((claim_C5_read_not_found [] [] "oldid" "rg" "nm" cexRespG cexRespS
      { notFound := true, msg := "404" }).1 rfl).1
  · exact ((claim_C5_read_not_found [] [] "oldid" "rg" "nm" cexRespG cexRespS
      { notFound := true, msg := "404" }).1 rfl).2
  · exact ((claim_C5_read_not_found [] [] "oldid" "rg" "nm" cexRespG cexRespS
      { notFound := false, msg := "boom" }).2 rfl).1
  · exact ((claim_C5_read_not_found [] [] "oldid" "rg" "nm" cexRespG cexRespS
      { notFound := false, msg := "boom" }).2 rfl).2

/-- C6: when the pre-create existence `Get` succeeds (or fails only with
    not-found) and the returned object carries an identifier, both Creates
    end with the distinct import-as-exists outcome, the `CreateOrUpdate` call
    is never issued, and no identifier is stored — the existing object is
    not silently adopted. -/
theorem claim_C6_no_silent_adopt
    (clientG : GroupClient) (dg : ContainerGroupConfig) (respG : ContainerGroupRemote)
    (errG : Option ApiError) (i : String)
    (hgetG : clientG.getBefore = (respG, errG))
    (herrG : ∀ e, errG = some e → e.notFound = true)
    (hidG : respG.id = some i)
    (clientS : ServiceClient) (ds : ContainerServiceConfig) (timeout : Nat)
    (respS : ContainerService) (errS : Option ApiError) (j : String)
    (hgetS : clientS.getBefore = (respS, errS))
    (herrS : ∀ e, errS = some e → e.notFound = true)
    (hidS : respS.id = some j) :
    resourceArmContainerGroupCreate clientG dg
        = ⟨.importAsExists i, false, none⟩ ∧
      resourceArmContainerServiceCreateUpdate clientS ds true timeout
        = ⟨.importAsExists j, false, none⟩ := by
  constructor
  · cases errG with
    | none => simp [resourceArmContainerGroupCreate, hgetG, hidG]
    | some e =>
      have he := herrG e rfl
      simp [resourceArmContainerGroupCreate, hgetG, hidG, he]
  · cases errS with
    | none => simp [resourceArmContainerServiceCreateUpdate, hgetS, hidS]
    | some e =>
      have he := herrS e rfl
      simp [resourceArmContainerServiceCreateUpdate, hgetS, hidS, he]

/-- A remote container group that already exists, for the C6 witness. -/
def c6RespG : ContainerGroupRemote := { cexRespG with id := some "gid" }

/-- A group client whose existence check finds `c6RespG`. -/
def c6ClientG : GroupClient :=
  { getBefore := (c6RespG, none), createOrUpdate := fun _ => none,
    getAfter := (cexRespG, none) }

/-- A minimal container group document for the C6 witness. -/
def c6Group : ContainerGroupConfig :=
  { name := "g", ip_address_type := "Public", os_type := "Linux",
    restart_policy := "Always", dns_name_label := "", image_registry_credential := [],
    container := [] }

/-- A remote container service that already exists, for the C6 witness. -/
def c6RespS : ContainerService := { cexRespS with id := some "sid" }

/-- A service client whose existence check finds `c6RespS`. -/
def c6ClientS : ServiceClient :=
  { getBefore := (c6RespS, none), createOrUpdate := fun _ => none,
    getAfter := (cexRespS, none), pollGets := fun _ => (cexRespS, none) }

/-- A minimal container service document for the C6 witness. -/
def c6Service : ContainerServiceConfig :=
  { name := "s", orchestration_platform := "Kubernetes",
    master_profile := { count := 1, dnsPrefix := "x" },
    linux_profile := { admin_username := "u", key_data := "k" },
    agent_pool_profile := { name := "a", count := 1, dnsPrefix := "y", vm_size := "A0" },
    service_principal := none, diagnostics_enabled := false }

/-- C6 (witness): both Creates refuse to adopt the concrete pre-existing
    remote objects above. -/
theorem claim_C6_witness :
    (c6ClientG.getBefore = (c6RespG, none) ∧ c6RespG.id = some "gid" ∧
      c6ClientS.getBefore = (c6RespS, none) ∧ c6RespS.id = some "sid") ∧
    (resourceArmContainerGroupCreate c6ClientG c6Group
        = ⟨.importAsExists "gid", false, none⟩ ∧
      resourceArmContainerServiceCreateUpdate c6ClientS c6Service true 7
        = ⟨.importAsExists "sid", false, none⟩) :=
  ⟨⟨rfl, rfl, rfl, rfl⟩,
   claim_C6_no_silent_adopt c6ClientG c6Group c6RespG none "gid" rfl
     (fun _ h => nomatch h) rfl c6ClientS c6Service 7 c6RespS none "sid" rfl
     (fun _ h => nomatch h) rfl⟩

/-- C7: if the remote API rejects the create-or-update request, both Creates
    return that error as-is and store no identifier; if the re-read after a
    successful create-or-update yields an object with no identifier, both
    Creates end with the internal consistency error (`Cannot read ... ID`)
    and store no identifier. -/
theorem claim_C7_create_failures
    (cgA : GroupClient) (dgA : ContainerGroupConfig) (respA : ContainerGroupRemote)
    (eA : ApiError)
    (hA1 : cgA.getBefore = (respA, none)) (hA2 : respA.id = none)
    (hA3 : cgA.createOrUpdate (expandContainerGroup dgA) = some eA)
    (cgB : GroupClient) (dgB : ContainerGroupConfig)
    (respB readB : ContainerGroupRemote)
    (hB1 : cgB.getBefore = (respB, none)) (hB2 : respB.id = none)
    (hB3 : cgB.createOrUpdate (expandContainerGroup dgB) = none)
    (hB4 : cgB.getAfter = (readB, none)) (hB5 : readB.id = none)
    (csC : ServiceClient) (dsC : ContainerServiceConfig) (tC : Nat) (eC : ApiError)
    (hC1 : csC.createOrUpdate (expandContainerServiceParameters dsC) = some eC)
    (csD : ServiceClient) (dsD : ContainerServiceConfig) (tD : Nat)
    (readD : ContainerService)
    (hD1 : csD.createOrUpdate (expandContainerServiceParameters dsD) = none)
    (hD2 : csD.getAfter = (readD, none)) (hD3 : readD.id = none) :
    resourceArmContainerGroupCreate cgA dgA = ⟨.errApi eA, true, none⟩ ∧
      resourceArmContainerGroupCreate cgB dgB = ⟨.errCannotReadId, true, none⟩ ∧
      resourceArmContainerServiceCreateUpdate csC dsC false tC
        = ⟨.errApi eC, true, none⟩ ∧
      resourceArmContainerServiceCreateUpdate csD dsD false tD
        = ⟨.errCannotReadId, true, none⟩ := by
  refine ⟨?_, ?_, ?_, ?_⟩
  · simp [resourceArmContainerGroupCreate, hA1, hA2, hA3]
  · simp [resourceArmContainerGroupCreate, hB1, hB2, hB3, hB4, hB5]
  · simp [resourceArmContainerServiceCreateUpdate, hC1]
  · simp [resourceArmContainerServiceCreateUpdate, hD1, hD2, hD3]

/-- A group client whose create-or-update call is rejected, for the C7
    witness. -/
def c7ClientGA : GroupClient :=
  { getBefore := (cexRespG, none),
    createOrUpdate := fun _ => some { notFound := false, msg := "rejected" },
    getAfter := (cexRespG, none) }

/-- A group client whose re-read returns an object with no identifier. -/
def c7ClientGB : GroupClient :=
  { getBefore := (cexRespG, none), createOrUpdate := fun _ => none,
    getAfter := (cexRespG, none) }

/-- A service client whose create-or-update call is rejected. -/
def c7ClientSC : ServiceClient :=
  { getBefore := (cexRespS, none),
    createOrUpdate := fun _ => some { notFound := false, msg := "rejected" },
    getAfter := (cexRespS, none), pollGets := fun _ => (cexRespS, none) }

/-- A service client whose re-read returns an object with no identifier. -/
def c7ClientSD : ServiceClient :=
  { getBefore := (cexRespS, none), createOrUpdate := fun _ => none,
    getAfter := (cexRespS, none), pollGets := fun _ => (cexRespS, none) }

/-- C7 (witness): the failure-path theorem at the four concrete clients. -/
theorem claim_C7_witness :
    (c7ClientGA.createOrUpdate (expandContainerGroup c6Group)
        = some { notFound := false, msg := "rejected" } ∧
      c7ClientGB.getAfter = (cexRespG, none) ∧ cexRespG.id = none ∧
      c7ClientSC.createOrUpdate (expandContainerServiceParameters c6Service)
        = some { notFound := false, msg := "rejected" } ∧
      c7ClientSD.getAfter = (cexRespS, none) ∧ cexRespS.id = none) ∧
    (resourceArmContainerGroupCreate c7ClientGA c6Group
        = ⟨.errApi { notFound := false, msg := "rejected" }, true, none⟩ ∧
      resourceArmContainerGroupCreate c7ClientGB c6Group
        = ⟨.errCannotReadId, true, none⟩ ∧
      resourceArmContainerServiceCreateUpdate c7ClientSC c6Service false 7
        = ⟨.errApi { notFound := false, msg := "rejected" }, true, none⟩ ∧
      resourceArmContainerServiceCreateUpdate c7ClientSD c6Service false 7
        = ⟨.errCannotReadId, true, none⟩) :=
  ⟨⟨rfl, rfl, rfl, rfl, rfl, rfl⟩,
   claim_C7_create_failures c7ClientGA c6Group cexRespG
     { notFound := false, msg := "rejected" } rfl rfl rfl
     c7ClientGB c6Group cexRespG cexRespG rfl rfl rfl rfl rfl
     c7ClientSC c6Service 7 { notFound := false, msg := "rejected" } rfl
     c7ClientSD c6Service 7 cexRespS rfl rfl rfl⟩

/-- The simulated remote label stream of the C8 scenario: `"Creating"`,
    `"Creating"`, then `"Succeeded"`. -/
def c8Refresh : Nat → Except GoError String :=
  fun t => if t < 2 then .ok "Creating" else .ok "Succeeded"

/-- C8: expanding the master profile `{count 1, dns_prefix "x"}` produces a
    remote profile with `Count 1` and `DNSPrefix "x"`; polling the stream
    `"Creating"`, `"Creating"`, `"Succeeded"` succeeds; and flattening the
    remote profile once the server has assigned its fqdn yields the canonical
    block with `count 1`, `dns_prefix "x"`, and that fqdn. -/
theorem claim_C8_scenario :
    expandAzureRmContainerServiceMasterProfile { count := 1, dnsPrefix := "x" }
        = { count := 1, dnsPrefix := "x", fqdn := none } ∧
      awaitTerminalState c8Refresh 10 = .succeeded "Succeeded" ∧
      flattenAzureRmContainerServiceMasterProfile
          { count := 1, dnsPrefix := "x", fqdn := some "master.cloudapp.example" }
        = some { count := 1, dnsPrefix := "x", fqdn := "master.cloudapp.example" } := by
  refine ⟨by decide, by decide, rfl⟩

/-- C9: the three configuration validators reject exactly the values the
    code's membership tests and bounds reject: a master count error exactly
    when the count is none of 1, 3, 5; an agent pool count error exactly when
    the count is below 1 or above 100; an orchestration platform error
    exactly when the string is none of `"DCOS"`, `"Kubernetes"`, `"Swarm"`
    (exact case). -/
theorem claim_C9_validators (v : Int) (s : String) :
    (validateArmContainerServiceMasterProfileCount v ≠ [] ↔ ¬ (v = 1 ∨ v = 3 ∨ v = 5)) ∧
      (validateArmContainerServiceAgentPoolProfileCount v ≠ [] ↔ (v ≤ 0 ∨ v > 100)) ∧
      (validateArmContainerServiceOrchestrationPlatform s ≠ [] ↔
        ¬ (s = "DCOS" ∨ s = "Kubernetes" ∨ s = "Swarm")) := by
  refine ⟨?_, ?_, ?_⟩
  · unfold validateArmContainerServiceMasterProfileCount
    by_cases h : v ∈ ([1, 3, 5] : List Int) <;> simp_all
  · unfold validateArmContainerServiceAgentPoolProfileCount
    by_cases h : v > 100 ∨ 0 ≥ v
    · rw [if_pos h]
      constructor
      · intro _
        omega
      · intro _
        simp
    · rw [if_neg h]
      constructor
      · intro hh
        exact absurd rfl hh
      · intro hh
        exfalso
        omega
  · unfold validateArmContainerServiceOrchestrationPlatform
    by_cases h : s ∈ (["DCOS", "Kubernetes", "Swarm"] : List String) <;> simp_all

/-- C10 (counterexample): the prior configuration entry at index 0 exists and
    its server equals the remote credential's server exactly, yet the
    flattened credential omits the password — because the prior password is
    the empty string, which `d.GetOk` reports as unset.  The claim's "in
    which case the prior password is echoed back" fails here. -/
theorem claim_C10_counterexample :
    flattenContainerImageRegistryCredentials
        [{ server := "srv", username := "user", password := "" }]
        (some [{ server := some "srv", username := some "user", password := some "pw" }])
      = some [{ server := some "srv", username := some "user", password := none }] ∧
      ([{ server := "srv", username := "user", password := "" }] :
          List CredConfig)[0]? = some { server := "srv", username := "user", password := "" } := by
  constructor
  · rfl
  · rfl

/-- C10 (amended): the `i`-th flattened credential carries a password exactly
    when the prior configuration has an entry at index `i`, that entry's
    server equals the `i`-th remote credential's server exactly, and the
    prior password is non-empty (`d.GetOk` treats an empty string as unset);
    the echoed value is that prior password. -/
theorem claim_C10_password_echo_amended (configsOld : List CredConfig)
    (creds : List ImageRegistryCredential) (i : Nat) (cred : ImageRegistryCredential)
    (hc : creds[i]? = some cred) (p : String) :
    ∃ out, flattenContainerImageRegistryCredentials configsOld (some creds) = some out ∧
      ∃ flat, out[i]? = some flat ∧
        (flat.password = some p ↔
          ∃ old, configsOld[i]? = some old ∧ cred.server = some old.server ∧
            old.password = p ∧ ¬ p = "") := by
  refine ⟨_, rfl, flattenCred configsOld i cred, ?_, ?_⟩
  · rw [List.getElem?_map, List.getElem?_enum, hc]
    rfl
  · unfold flattenCred
    cases ho : configsOld[i]? with
    | none => simp
    | some old =>
      cases hs : cred.server with
      | none => simp
      | some s =>
        show (if s = old.server then
            (if old.password ≠ "" then some old.password else none) else none) = some p ↔
          ∃ old2, some old = some old2 ∧ some s = some old2.server ∧
            old2.password = p ∧ ¬ p = ""
        by_cases hmatch : s = old.server
        · rw [if_pos hmatch]
          by_cases hemp : old.password = ""
          · rw [if_neg (by simpa using hemp)]
            constructor
            · intro h
              exact absurd h (by simp)
            · rintro ⟨old2, ho2, _, hp2, hne⟩
              injection ho2 with hoe
              subst hoe
              exact (hne (hp2 ▸ hemp)).elim
          · rw [if_pos hemp]
            constructor
            · intro h
              injection h with hpw
              exact ⟨old, rfl, congrArg some hmatch, hpw, fun hpe => hemp (hpw.trans hpe)⟩
            · rintro ⟨old2, ho2, _, hp2, _⟩
              injection ho2 with hoe
              subst hoe
              exact congrArg some hp2
        · rw [if_neg hmatch]
          constructor
          · intro h
            exact absurd h (by simp)
          · rintro ⟨old2, ho2, hs2, _, _⟩
            injection ho2 with hoe
            subst hoe
            injection hs2 with hse
            exact absurd hse hmatch

/-- C10 (witness): the amended password-echo theorem at a one-entry prior
    configuration with the matching server and a non-empty prior password. -/
theorem claim_C10_witness :
    (([{ server := some "srv", username := some "u", password := some "remote" }] :
        List ImageRegistryCredential)[0]?
      = some { server := some "srv", username := some "u", password := some "remote" }) ∧
    (∃ out, flattenContainerImageRegistryCredentials
        [{ server := "srv", username := "u", password := "pw" }]
        (some [{ server := some "srv", username := some "u", password := some "remote" }])
        = some out ∧
      ∃ flat, out[0]? = some flat ∧
        (flat.password = some "pw" ↔
          ∃ old, ([{ server := "srv", username := "u", password := "pw" }] :
              List CredConfig)[0]? = some old ∧
            ({ server := some "srv", username := some "u", password := some "remote" } :
              ImageRegistryCredential).server = some old.server ∧
            old.password = "pw" ∧ ¬ "pw" = "")) :=
  ⟨rfl, claim_C10_password_echo_amended
    [{ server := "srv", username := "u", password := "pw" }]
    [{ server := some "srv", username := some "u", password := some "remote" }] 0
    { server := some "srv", username := some "u", password := some "remote" } rfl "pw"⟩

end Azurerm
